import Mathlib

/-!
Shallow embedding of `daemon.py` from the solismqtt repository.

The daemon polls a Solis solar inverter over HTTP, decodes its
semicolon-delimited status records, announces Home-Assistant discovery
descriptors over MQTT once, and then publishes telemetry forever.

Conventions used throughout this development:

* Python `float` values are modelled as exact rationals (`ℚ`); the numeric
  literals the daemon handles are short decimal strings, so the rational
  model tracks the decimal arithmetic the source performs.  Rationals are
  always built with `mkRat` so that every definition evaluates by kernel
  reduction.
* Python exceptions are modelled with `Option`/`Except`: a function that can
  raise returns `none` / `.error` on the raising paths.
* Python `str.lower` is modelled on the ASCII range (`pyLower`), the only
  range involved in the daemon's comparisons.
* The paho-mqtt call `result.wait_for_publish(30)` is external library code;
  it is modelled from the spec (see `WaitResult`): the publish either is
  acknowledged within the 30-second bound or the bounded wait fails, which
  the daemon observes as the `RuntimeError` it catches.
-/

/-! ## Python string primitives -/

/-- ASCII lower-casing of one character, as Python's `str.lower` acts on the
ASCII range (code points 65-90 map to 97-122, everything else in that model
is unchanged). -/
def pyCharLower (c : Char) : Char :=
  if 65 ≤ c.toNat ∧ c.toNat ≤ 90 then Char.ofNat (c.toNat + 32) else c

/-- Python `str.lower`, character by character. -/
def pyLower (s : String) : String := ⟨s.data.map pyCharLower⟩

/-- Python `str.split(sep)` for a one-character separator: always returns at
least one (possibly empty) field. -/
def splitOnChar (sep : Char) : List Char → List (List Char)
  | [] => [[]]
  | c :: rest =>
    match splitOnChar sep rest with
    | [] => [[c]]
    | h :: t => if c = sep then [] :: h :: t else (c :: h) :: t

/-- Python `s.rstrip("\x00").lstrip("\x00")`: drop NUL padding from both
ends of the raw response body. -/
def stripNulls (l : List Char) : List Char :=
  ((l.reverse.dropWhile (· = '\x00')).reverse).dropWhile (· = '\x00')

/-- `response.text.rstrip("\x00").lstrip("\x00").split(";")` — the field
list both decoders start from. -/
def responseFields (body : String) : List String :=
  (splitOnChar ';' (stripNulls body.data)).map String.mk

/-! ## Python numeric conversions -/

/-- Value of a digit string read left to right. -/
def decDigitsVal (l : List Char) : ℕ :=
  l.foldl (fun n c => 10 * n + (c.toNat - 48)) 0

/-- Magnitude part of Python `float(...)` on the plain decimal fragment
`digits`, `digits.digits`, `digits.` or `.digits`; anything else raises
`ValueError`, modelled as `none`. -/
def pyFloatMag (l : List Char) : Option ℚ :=
  match (splitOnChar '.' l) with
  | [ip] =>
    if ip ≠ [] ∧ ip.all Char.isDigit then some (mkRat (decDigitsVal ip) 1) else none
  | [ip, fp] =>
    if (ip ≠ [] ∨ fp ≠ []) ∧ ip.all Char.isDigit ∧ fp.all Char.isDigit then
      some (mkRat (decDigitsVal ip * 10 ^ fp.length + decDigitsVal fp) (10 ^ fp.length))
    else none
  | _ => none

/-- Python `float(s)` on the decimal fragment of its grammar, with an
optional leading sign. -/
def pyFloat (s : String) : Option ℚ :=
  match s.data with
  | '+' :: rest => pyFloatMag rest
  | '-' :: rest => (pyFloatMag rest).map (fun q => -q)
  | l => pyFloatMag l

/-- Magnitude part of Python `int(...)` on a digit string. -/
def pyIntMag (l : List Char) : Option ℤ :=
  if l ≠ [] ∧ l.all Char.isDigit then some (decDigitsVal l : ℤ) else none

/-- Python `int(s)` with an optional leading sign. -/
def pyInt (s : String) : Option ℤ :=
  match s.data with
  | '+' :: rest => pyIntMag rest
  | '-' :: rest => (pyIntMag rest).map (fun z => -z)
  | l => pyIntMag l

/-- Round-half-to-even to an integer, the rounding mode of Python's
`round`, computed on the exact rational value. -/
def roundHalfEven (x : ℚ) : ℤ :=
  let f := ⌊x⌋
  if x.num * 2 = (2 * f + 1) * (x.den : ℤ) then (if f % 2 = 0 then f else f + 1)
  else if x.num * 2 < (2 * f + 1) * (x.den : ℤ) then f else f + 1

/-- Python `round(q, 3)` on the exact rational value of the parsed field. -/
def pyRound3 (q : ℚ) : ℚ := mkRat (roundHalfEven (mkRat (q.num * 1000) q.den)) 1000

/-! ## The Reading record (`read_inverter`) -/

/-- One decoded inverter snapshot, the dict built by `read_inverter`. -/
structure Reading where
  serial_number : String
  model_number : String
  firmware_version : String
  inverter_temperature : ℚ
  power_current : ℤ
  power_today : ℚ
  power_total : Option ℚ
  alerts_enabled : Option Bool
deriving DecidableEq, Repr

/-- The alert tri-state of `read_inverter`:
`False if s.lower() == "no" else True if s.lower() == "yes" else None`. -/
def alerts_flag (s : String) : Option Bool :=
  if pyLower s = "no" then some false
  else if pyLower s = "yes" then some true
  else none

/-- The lifetime-total field of `read_inverter`: parsed as float unless it
equals the literal sentinel `"d"`, in which case it is recorded absent. -/
def parse_total (s : String) : Option (Option ℚ) :=
  if s ≠ "d" then (pyFloat s).map some else some none

/-- `read_inverter`, given the HTTP response body: NUL-strip, split on `;`,
decode the eight positional fields.  A missing field (`IndexError`) or a
failing numeric conversion (`ValueError`) raises, modelled as `none`. -/
def read_inverter (body : String) : Option Reading :=
  match responseFields body with
  | sn :: msvn :: pv_type :: s3 :: s4 :: s5 :: s6 :: s7 :: _ =>
    match pyFloat s3, pyInt s4, pyFloat s5, parse_total s6 with
    | some rate_p, some now_p, some today_e, some total_e =>
      some { serial_number := sn
             model_number := pv_type
             firmware_version := msvn
             inverter_temperature := rate_p
             power_current := now_p
             power_today := pyRound3 today_e
             power_total := total_e
             alerts_enabled := alerts_flag s7 }
    | _, _, _, _ => none
  | _ => none

/-! ## Sensor table and key projections -/

/-- A loosely-typed Python dict value, as stored in the `read_inverter`
dict. -/
inductive PyVal where
  | s (v : String)
  | i (v : ℤ)
  | q (v : ℚ)
  | b (v : Bool)
deriving DecidableEq, Repr

/-- Python `d.get(key)` on the `read_inverter` dict: `none` both for a
missing key and for a key stored with value `None`. -/
def readingGet (r : Reading) (k : String) : Option PyVal :=
  if k = "serial_number" then some (.s r.serial_number)
  else if k = "model_number" then some (.s r.model_number)
  else if k = "firmware_version" then some (.s r.firmware_version)
  else if k = "inverter_temperature" then some (.q r.inverter_temperature)
  else if k = "power_current" then some (.i r.power_current)
  else if k = "power_today" then some (.q r.power_today)
  else if k = "power_total" then r.power_total.map .q
  else if k = "alerts_enabled" then r.alerts_enabled.map .b
  else none

/-- The fixed `self.sensors` table: internal key, display name, unit, in
source order. -/
def sensors : List (String × String × String) :=
  [("power_current", "Current Power", "W"),
   ("power_today", "Today\x27s Production", "kWh"),
   ("power_total", "Total Production", "kWh"),
   ("inverter_temperature", "Inverter Temperature", "°C")]

/-- The internal keys of the sensor table. -/
def sensorKeys : List String := sensors.map (·.1)

/-- The sensor-table rows whose key has a non-`None` value in the reading —
the filter `metadata.get(internal_name) != None` shared by `create_topics`
and `run`. -/
def presentSensors (r : Reading) : List (String × String × String) :=
  sensors.filter (fun s => (readingGet r s.1).isSome)

/-- The sensor keys for which `create_topics` emits a discovery
descriptor. -/
def discoveredKeys (r : Reading) : List String :=
  (presentSensors r).map (·.1)

/-- The flat telemetry dict built each cycle by `run`: one key per sensor
whose current value is non-`None`, in table order. -/
def telemetryPayload (r : Reading) : List (String × PyVal) :=
  sensors.filterMap (fun s => (readingGet r s.1).map (fun v => (s.1, v)))

/-- The key set of the per-cycle telemetry payload. -/
def telemetryKeys (r : Reading) : List String :=
  (telemetryPayload r).map (·.1)

/-! ## Discovery descriptors (`make_ha_topic`) -/

/-- The `MODEL_LOOKUP` table. -/
def MODEL_LOOKUP : List (String × String) := [("518", "S5-GR3P10K-LV")]

/-- Python `MODEL_LOOKUP.get(key)`. -/
def MODEL_LOOKUP_get (k : String) : Option String :=
  (MODEL_LOOKUP.find? (fun p => p.1 == k)).map (·.2)

/-- Model resolution in `make_ha_topic`: `if MODEL_LOOKUP.get(m): ... else m`
(Python truthiness: an empty-string table entry would also fall back). -/
def resolve_model (mn : String) : String :=
  match MODEL_LOOKUP_get mn with
  | some v => if v = "" then mn else v
  | none => mn

/-- The JSON object `make_ha_topic` serialises, field for field in source
order (`device_name` is the `"name"` key nested in `"device"`). -/
structure HaPayload where
  identifiers : List String
  manufacturer : String
  model : String
  device_name : String
  sw_version : String
  device_class : String
  name : String
  state_class : String
  state_topic : String
  unique_id : String
  unit_of_measurement : String
  value_template : String
  expire_after : String
  availability_mode : String
deriving DecidableEq, Repr

/-- `make_ha_topic`: builds one discovery `(topic, payload)` pair.  The two
`assert`s on the derived device/state class are modelled as `.error ()`
(an `AssertionError`). -/
def make_ha_topic (metadata : Reading) (internal_name external_name unit : String) :
    Except Unit (String × HaPayload) :=
  let topic := "homeassistant/sensor/" ++ metadata.serial_number ++ "/" ++ internal_name ++ "/config"
  let state_topic := "solismqtt/" ++ metadata.serial_number
  let ha_name := metadata.serial_number ++ "_" ++ internal_name
  let ha_uid := ha_name ++ "_solismqtt"
  let hd_device_class : Option String :=
    if unit = "kWh" then some "energy"
    else if unit = "W" then some "power"
    else if unit = "°C" then some "temperature"
    else none
  let hd_state_class : Option String :=
    if unit = "kWh" then some "total_increasing"
    else if unit = "W" then some "measurement"
    else if unit = "°C" then some "measurement"
    else none
  match hd_device_class, hd_state_class with
  | some dc, some sc =>
    let model := resolve_model metadata.model_number
    .ok (topic,
      { identifiers := ["solismqtt_" ++ model ++ "_" ++ metadata.serial_number]
        manufacturer := "Solis"
        model := model
        device_name := "Solar Inverter"
        sw_version := metadata.firmware_version
        device_class := dc
        name := external_name
        state_class := sc
        state_topic := state_topic
        unique_id := ha_uid
        unit_of_measurement := unit
        value_template := "\x7b\x7b value_json." ++ internal_name ++ " \x7d\x7d"
        expire_after := if sc = "total_increasing" then "0" else "120"
        availability_mode := if sc = "total_increasing" then "latest" else "any" })
  | _, _ => .error ()

/-- The descriptor-accumulating loop of `create_topics`, over a given list
of sensor rows. -/
def descriptorsAux (metadata : Reading) :
    List (String × String × String) → Except Unit (List (String × HaPayload))
  | [] => .ok []
  | s :: rest => do
    let d ← make_ha_topic metadata s.1 s.2.1 s.2.2
    let ds ← descriptorsAux metadata rest
    pure (d :: ds)

/-- The discovery batch built by `create_topics` from the first successful
reading: one descriptor per present sensor, in table order. -/
def create_topics_descriptors (metadata : Reading) : Except Unit (List (String × HaPayload)) :=
  descriptorsAux metadata (presentSensors metadata)

/-! ## Startup backoff (`create_topics` retry loop) -/

/-- The sleep `create_topics` performs after a failed poll with the given
value of its `attempts` counter: `600` once `2**attempts > 600`, else
`2**attempts`. -/
def startingWait (attempts : ℕ) : ℕ :=
  if 2 ^ attempts > 600 then 600 else 2 ^ attempts

/-- The `create_topics` retry loop, driven by an oracle giving each poll
attempt's outcome and by fuel bounding the number of iterations modelled.
Returns the first successful reading together with the list of sleeps
performed, `none` if the fuel runs out first. -/
def create_topics_poll (poll : ℕ → Option Reading) : ℕ → ℕ → Option (Reading × List ℕ)
  | 0, _ => none
  | fuel + 1, attempts =>
    match poll attempts with
    | some r => some (r, [])
    | none =>
      (create_topics_poll poll fuel (attempts + 1)).map
        (fun p => (p.1, startingWait attempts :: p.2))

/-! ## Publishing (`mqtt_publish`, `run`) -/

/-- Modelled from the spec: outcome of the external
`result.wait_for_publish(30)` call for one message.  The spec's broker
session blocks until the broker acknowledges delivery or the bounded
30-second wait elapses; the failure of the bounded wait is what the daemon
observes as the `RuntimeError` it catches. -/
inductive WaitResult where
  | ackedWithin30
  | timedOut
deriving DecidableEq, Repr

/-- Outcome of one `requests.get(self.uptime_uri)` liveness ping. -/
inductive GetResult where
  | ok
  | exn
deriving DecidableEq, Repr

/-- Observable events of one `mqtt_publish` call. -/
inductive PubEvent where
  | publishTimeout (topic : String)
  | uptimePing (topic : String)
deriving DecidableEq, Repr

/-- `mqtt_publish`: for each `(topic, msg)` pair, publish, wait (bounded)
for the acknowledgement, catch the `RuntimeError` of a failed wait and log
it, and otherwise issue the liveness `GET` — whose own failure is NOT
caught and propagates (`.error`). -/
def mqtt_publish {α : Type} :
    List ((String × α) × WaitResult × GetResult) → Except Unit (List PubEvent)
  | [] => .ok []
  | ((topic, _), w, g) :: rest =>
    match w with
    | .timedOut => (mqtt_publish rest).map (fun evs => PubEvent.publishTimeout topic :: evs)
    | .ackedWithin30 =>
      match g with
      | .exn => .error ()
      | .ok => (mqtt_publish rest).map (fun evs => PubEvent.uptimePing topic :: evs)

/-- Environment of one steady-state cycle: the poll outcome and the
outcomes of the cycle's publish wait and liveness ping. -/
structure CycleInput where
  poll : Except Unit Reading
  w : WaitResult
  g : GetResult

/-- The `try`-block of one `run` cycle: poll, project the telemetry dict,
publish it (non-retained) to the shared state topic. -/
def run_cycle (state_topic : String) (ci : CycleInput) : Except Unit (List PubEvent) := do
  let state ← ci.poll
  mqtt_publish [((state_topic, telemetryPayload state), ci.w, ci.g)]

/-- One full `run` cycle: the bare `except` catches anything the try-block
raised, logs it, and falls through to the sleep. -/
def run_step (state_topic : String) (ci : CycleInput) : List PubEvent :=
  match run_cycle state_topic ci with
  | .error _ => []
  | .ok evs => evs

/-- `n` iterations of the steady-state loop, one result list per cycle. -/
def run_loop (state_topic : String) (inputs : ℕ → CycleInput) : ℕ → List (List PubEvent)
  | 0 => []
  | n + 1 => run_loop state_topic inputs n ++ [run_step state_topic (inputs n)]

/-- The discovery publish retry loop of `create_topics`: publish the whole
batch of `topics`, break on success, and on any exception sleep 60 seconds
and retry the whole batch.  `outcomes k` gives the per-message wait/ping
outcomes during attempt `k`, and fuel bounds the number of iterations
modelled.  Returns the events of the successful attempt together with the
list of sleeps performed, `none` if the fuel runs out first. -/
def create_topics_publish {α : Type} (topics : List (String × α))
    (outcomes : ℕ → List (WaitResult × GetResult)) :
    ℕ → ℕ → Option (List PubEvent × List ℕ)
  | 0, _ => none
  | fuel + 1, attempt =>
    match mqtt_publish (topics.zip (outcomes attempt)) with
    | .ok evs => some (evs, [])
    | .error _ =>
      (create_topics_publish topics outcomes fuel (attempt + 1)).map
        (fun p => (p.1, 60 :: p.2))

/-! ## The device-status decoder (`read_device`) -/

/-- The dict built by `read_device`. -/
structure DeviceInfo where
  sn : String
  fwver : String
  wireless_ap : Option Bool
  wireless_ap_ssid : Option String
  wireless_ap_ip : Option String
  wireless_sta : Option Bool
  wireless_sta_ssid : Option String
  wireless_sta_rssi : Option String
  wireless_sta_ip : Option String
  wireless_sta_mac : Option String
  remote_server_a_connected : Option Bool
  remote_server_b_connected : Option Bool
deriving DecidableEq, Repr

/-- `s if s != "null" else None`. -/
def nullable (s : String) : Option String :=
  if s ≠ "null" then some s else none

/-- The wireless AP/STA status decode:
`True if s.lower() == "Enable" else False if s.lower() == "Disable" else None`.
Note both literals keep their capital letter. -/
def enable_flag (s : String) : Option Bool :=
  if pyLower s = "Enable" then some true
  else if pyLower s = "Disable" then some false
  else none

/-- The remote-server status decode, comparing against all-lowercase
literals. -/
def connected_flag (s : String) : Option Bool :=
  if pyLower s = "connected" then some true
  else if pyLower s = "unconnected" then some false
  else none

/-- `read_device`: positional decode of the thirteen device-status fields
(index 5 is unused by the source). -/
def read_device (body : String) : Option DeviceInfo :=
  match responseFields body with
  | f0 :: f1 :: f2 :: f3 :: f4 :: _f5 :: f6 :: f7 :: f8 :: f9 :: f10 :: f11 :: f12 :: _ =>
    some { sn := f0
           fwver := f1
           wireless_ap := enable_flag f2
           wireless_ap_ssid := nullable f3
           wireless_ap_ip := nullable f4
           wireless_sta := enable_flag f6
           wireless_sta_ssid := nullable f7
           wireless_sta_rssi := nullable f8
           wireless_sta_ip := nullable f9
           wireless_sta_mac := nullable f10
           remote_server_a_connected := connected_flag f11
           remote_server_b_connected := connected_flag f12 }
  | _ => none

/-! ## Concrete scenario records -/

/-- The Scenario A raw record. -/
def recordA : String := "SN1;1.2.3;518;23.4;1500;4.321;98765.0;No"

/-- The Scenario B raw record: field index 6 is the `"d"` sentinel. -/
def recordB : String := "SN1;1.2.3;518;23.4;1500;4.321;d;No"

/-- The Reading decoded from `recordA`. -/
def readingA : Reading :=
  { serial_number := "SN1", model_number := "518", firmware_version := "1.2.3",
    inverter_temperature := mkRat 117 5, power_current := 1500,
    power_today := mkRat 4321 1000, power_total := some (mkRat 98765 1),
    alerts_enabled := some false }

/-- The Reading decoded from `recordB`: the lifetime total is absent. -/
def readingB : Reading :=
  { serial_number := "SN1", model_number := "518", firmware_version := "1.2.3",
    inverter_temperature := mkRat 117 5, power_current := 1500,
    power_today := mkRat 4321 1000, power_total := none,
    alerts_enabled := some false }

/-! ## Helper lemmas -/

theorem toNat_ofNat_of_valid {n : ℕ} (h : n.isValidChar) : (Char.ofNat n).toNat = n := by
  rw [Char.ofNat, dif_pos h]
  rfl

/-- `pyCharLower` never produces a code point in the uppercase ASCII
range. -/
theorem pyCharLower_toNat_ne (c : Char) {m : ℕ} (h65 : 65 ≤ m) (h90 : m ≤ 90) :
    (pyCharLower c).toNat ≠ m := by
  unfold pyCharLower
  split
  · rename_i h
    rw [toNat_ofNat_of_valid (Or.inl (by omega))]
    omega
  · rename_i h
    intro hc
    rw [hc] at h
    omega

/-- A lower-cased string never equals a string starting with an uppercase
ASCII letter. -/
theorem pyLower_ne_of_upper_head (s : String) (c : Char) (t : List Char)
    (h65 : 65 ≤ c.toNat) (h90 : c.toNat ≤ 90) : pyLower s ≠ String.mk (c :: t) := by
  intro heq
  have hd : (pyLower s).data = c :: t := by rw [heq]
  simp only [pyLower] at hd
  cases hval : s.data with
  | nil => rw [hval] at hd; simp at hd
  | cons c0 l0 =>
    rw [hval] at hd
    simp only [List.map_cons] at hd
    have hhd : pyCharLower c0 = c := by
      have := congrArg (fun l => l.head?) hd
      simpa using this
    exact pyCharLower_toNat_ne c0 h65 h90 (by rw [hhd])

/-- The `Enable`/`Disable` comparisons of `read_device` can never match a
lower-cased token. -/
theorem enable_flag_none (s : String) : enable_flag s = none := by
  have hE : pyLower s ≠ "Enable" :=
    pyLower_ne_of_upper_head s 'E' ['n', 'a', 'b', 'l', 'e'] (by decide) (by decide)
  have hD : pyLower s ≠ "Disable" :=
    pyLower_ne_of_upper_head s 'D' ['i', 's', 'a', 'b', 'l', 'e'] (by decide) (by decide)
  simp [enable_flag, hE, hD]

/-- The discovery key set is the sensor table minus `power_total` exactly
when the lifetime total is absent. -/
theorem discoveredKeys_eq (r : Reading) :
    discoveredKeys r =
      if r.power_total.isSome
      then ["power_current", "power_today", "power_total", "inverter_temperature"]
      else ["power_current", "power_today", "inverter_temperature"] := by
  cases h : r.power_total <;>
    simp [discoveredKeys, presentSensors, sensors, readingGet, h, List.filter]

/-- The telemetry key set built by `run` coincides with the discovery key
set built from the same reading. -/
theorem telemetryKeys_eq (r : Reading) :
    telemetryKeys r =
      if r.power_total.isSome
      then ["power_current", "power_today", "power_total", "inverter_temperature"]
      else ["power_current", "power_today", "inverter_temperature"] := by
  cases h : r.power_total <;>
    simp [telemetryKeys, telemetryPayload, sensors, readingGet, h, List.filterMap]

/-! ## Claim theorems -/

/-- C1: for every raw inverter response body with at least 8
semicolon-separated fields after NUL stripping whose numeric fields parse,
decoding is total (and, being a function, deterministic), producing exactly
one Reading; the record `"SN1;1.2.3;518;23.4;1500;4.321;98765.0;No"`
decodes to serial `SN1`, firmware `1.2.3`, model `518`, temperature 23.4,
power 1500, today 4.321 (rounded to 3 decimals), total 98765.0 and alert
flag false; the alert token is compared case-insensitively, `no` mapping to
false, `yes` to true and anything else to unknown (`none`). -/
theorem read_inverter_total_scenarioA (body : String)
    (s0 s1 s2 s3 s4 s5 s6 s7 : String) (rest : List String)
    (hfs : responseFields body = s0 :: s1 :: s2 :: s3 :: s4 :: s5 :: s6 :: s7 :: rest)
    (hp3 : (pyFloat s3).isSome = true)
    (hp4 : (pyInt s4).isSome = true)
    (hp5 : (pyFloat s5).isSome = true)
    (hp6 : s6 ≠ "d" → (pyFloat s6).isSome = true) :
    (∃ r : Reading, read_inverter body = some r) ∧
    read_inverter "SN1;1.2.3;518;23.4;1500;4.321;98765.0;No" =
      some { serial_number := "SN1", model_number := "518", firmware_version := "1.2.3",
             inverter_temperature := mkRat 117 5, power_current := 1500,
             power_today := mkRat 4321 1000, power_total := some (mkRat 98765 1),
             alerts_enabled := some false } ∧
    (∀ s : String,
      (pyLower s = "no" → alerts_flag s = some false) ∧
      (pyLower s = "yes" → alerts_flag s = some true) ∧
      (pyLower s ≠ "no" → pyLower s ≠ "yes" → alerts_flag s = none)) := by
  refine ⟨?_, by decide, ?_⟩
  · obtain ⟨t, ht⟩ := Option.isSome_iff_exists.mp hp3
    obtain ⟨p, hp⟩ := Option.isSome_iff_exists.mp hp4
    obtain ⟨y, hy⟩ := Option.isSome_iff_exists.mp hp5
    have htot : ∃ te, parse_total s6 = some te := by
      by_cases hd : s6 = "d"
      · exact ⟨none, by simp [parse_total, hd]⟩
      · obtain ⟨q, hq⟩ := Option.isSome_iff_exists.mp (hp6 hd)
        exact ⟨some q, by simp [parse_total, hd, hq]⟩
    obtain ⟨te, hte⟩ := htot
    exact ⟨{ serial_number := s0, model_number := s2, firmware_version := s1,
             inverter_temperature := t, power_current := p, power_today := pyRound3 y,
             power_total := te, alerts_enabled := alerts_flag s7 },
           by simp only [read_inverter, hfs, ht, hp, hy, hte]⟩
  · intro s
    refine ⟨fun h => by simp [alerts_flag, h], fun h => by simp [alerts_flag, h],
      fun h1 h2 => by simp [alerts_flag, h1, h2]⟩

/-- Witness for C1 at the Scenario A record: every hypothesis holds there
and decoding succeeds. -/
theorem read_inverter_total_scenarioA_witness :
    ∃ r : Reading, read_inverter "SN1;1.2.3;518;23.4;1500;4.321;98765.0;No" = some r :=
  (read_inverter_total_scenarioA "SN1;1.2.3;518;23.4;1500;4.321;98765.0;No"
    "SN1" "1.2.3" "518" "23.4" "1500" "4.321" "98765.0" "No" []
    (by decide) (by decide) (by decide) (by decide) (fun _ => by decide)).1

/-- C2: during `Starting`, the wait slept after `k + 1` consecutive failures
(attempt counter `k`) is exactly `min (2 ^ k) 600`; the waits never decrease
and never exceed 600, and 11 consecutive failures yield sleeps
1,2,4,8,16,32,64,128,256,512,600 before the successful 12th attempt. -/
theorem starting_backoff_spec :
    (∀ k, startingWait k = min (2 ^ k) 600) ∧
    (∀ j k, j ≤ k → startingWait j ≤ startingWait k) ∧
    (∀ k, startingWait k ≤ 600) ∧
    (∀ r : Reading,
      create_topics_poll (fun k => if k < 11 then none else some r) 12 0 =
        some (r, [1, 2, 4, 8, 16, 32, 64, 128, 256, 512, 600])) := by
  have hw : ∀ n, startingWait n = min (2 ^ n) 600 := by
    intro n; unfold startingWait; split <;> omega
  refine ⟨hw, ?_, ?_, ?_⟩
  · intro j k h
    rw [hw j, hw k]
    exact min_le_min (Nat.pow_le_pow_right (by norm_num) h) le_rfl
  · intro k
    rw [hw k]
    exact min_le_right _ _
  · intro r
    rfl

/-- Witness for C2's monotonicity hypothesis at concrete attempt indices. -/
theorem starting_backoff_spec_witness : startingWait 3 ≤ startingWait 7 :=
  starting_backoff_spec.2.1 3 7 (by decide)

/-- C3: a publish whose broker acknowledgement does not arrive within the
bounded 30-second wait yields a publish-timeout failure result (the caught
and logged error), never an uptime-ping success signal, and the
steady-state loop still completes every cycle and proceeds to its next
tick.  The outcome of the external bounded wait is the spec-modelled
`WaitResult`. -/
theorem publish_timeout_failure :
    (∀ (α : Type) (tm : String × α) (g : GetResult)
        (rest : List ((String × α) × WaitResult × GetResult)),
      mqtt_publish ((tm, WaitResult.timedOut, g) :: rest) =
        (mqtt_publish rest).map (fun evs => PubEvent.publishTimeout tm.1 :: evs)) ∧
    (∀ (st : String) (r : Reading) (g : GetResult),
      run_step st ⟨Except.ok r, WaitResult.timedOut, g⟩ = [PubEvent.publishTimeout st]) ∧
    (∀ (st : String) (r : Reading) (g : GetResult) (n : ℕ),
      (run_loop st (fun _ => ⟨Except.ok r, WaitResult.timedOut, g⟩) n).length = n) := by
  refine ⟨fun α tm g rest => rfl, fun st r g => rfl, fun st r g n => ?_⟩
  induction n with
  | zero => rfl
  | succ n ih => simp [run_loop, ih]

/-- C4: in the steady state every cycle's exception — from the poll or from
the publish — is caught inside the cycle, so the loop driven for `n` ticks
always completes exactly `n` cycles; a failing poll and a failing publish
each produce an empty (skipped) cycle, never a terminated loop. -/
theorem steady_cycle_isolation :
    (∀ (st : String) (inputs : ℕ → CycleInput) (n : ℕ),
      (run_loop st inputs n).length = n) ∧
    (∀ (st : String) (w : WaitResult) (g : GetResult),
      run_step st ⟨Except.error (), w, g⟩ = []) ∧
    (∀ (st : String) (r : Reading),
      run_step st ⟨Except.ok r, WaitResult.ackedWithin30, GetResult.exn⟩ = []) := by
  refine ⟨fun st inputs n => ?_, fun st w g => rfl, fun st r => rfl⟩
  induction n with
  | zero => rfl
  | succ n ih => simp [run_loop, ih]

/-- C7 counterexample: a failing liveness `GET` after a confirmed delivery
is NOT swallowed inside `mqtt_publish` — it propagates to the caller as an
exception (`.error`), so the claim as stated is false. -/
theorem uptime_ping_propagates_cex :
    mqtt_publish
      [(("solismqtt/SN1", ([] : List (String × PyVal))),
        WaitResult.ackedWithin30, GetResult.exn)] = Except.error () := rfl

/-- C7 amended: the uptime `GET` is issued only after a confirmed delivery
(a timed-out wait logs the failure and never pings), but a failure of the
`GET` itself propagates out of `mqtt_publish` to the caller: in the steady
state the cycle's blanket handler catches it (the cycle is treated as
failed and skipped, and the loop still reaches its next tick), and in the
discovery phase the batch is treated as failed and the whole batch is
retried after a 60-second sleep — concretely, a batch whose only failure
is the uptime `GET` is re-published and lands on the retry. -/
theorem uptime_ping_amended :
    (∀ (α : Type) (tm : String × α) (g : GetResult)
        (rest : List ((String × α) × WaitResult × GetResult)),
      mqtt_publish ((tm, WaitResult.timedOut, g) :: rest) =
        (mqtt_publish rest).map (fun evs => PubEvent.publishTimeout tm.1 :: evs)) ∧
    (∀ (α : Type) (tm : String × α)
        (rest : List ((String × α) × WaitResult × GetResult)),
      mqtt_publish ((tm, WaitResult.ackedWithin30, GetResult.ok) :: rest) =
        (mqtt_publish rest).map (fun evs => PubEvent.uptimePing tm.1 :: evs)) ∧
    (∀ (α : Type) (tm : String × α)
        (rest : List ((String × α) × WaitResult × GetResult)),
      mqtt_publish ((tm, WaitResult.ackedWithin30, GetResult.exn) :: rest) =
        Except.error ()) ∧
    (∀ (st : String) (r : Reading),
      run_step st ⟨Except.ok r, WaitResult.ackedWithin30, GetResult.exn⟩ = []) ∧
    (∀ (st : String) (inputs : ℕ → CycleInput) (n : ℕ),
      (run_loop st inputs n).length = n) ∧
    (∀ (α : Type) (topics : List (String × α))
        (outcomes : ℕ → List (WaitResult × GetResult)) (fuel attempt : ℕ),
      (mqtt_publish (topics.zip (outcomes attempt)) = Except.error () →
        create_topics_publish topics outcomes (fuel + 1) attempt =
          (create_topics_publish topics outcomes fuel (attempt + 1)).map
            (fun p => (p.1, 60 :: p.2))) ∧
      (∀ evs, mqtt_publish (topics.zip (outcomes attempt)) = Except.ok evs →
        create_topics_publish topics outcomes (fuel + 1) attempt = some (evs, []))) ∧
    create_topics_publish [("homeassistant/sensor/SN1/power_current/config", (0 : ℕ))]
      (fun k => if k = 0 then [(WaitResult.ackedWithin30, GetResult.exn)]
                else [(WaitResult.ackedWithin30, GetResult.ok)]) 2 0 =
      some ([PubEvent.uptimePing "homeassistant/sensor/SN1/power_current/config"],
        [60]) := by
  refine ⟨fun α tm g rest => rfl, fun α tm rest => rfl, fun α tm rest => rfl,
    fun st r => rfl, fun st inputs n => ?_, fun α topics outcomes fuel attempt => ?_, rfl⟩
  · induction n with
    | zero => rfl
    | succ n ih => simp [run_loop, ih]
  · constructor
    · intro h
      simp [create_topics_publish, h]
    · intro evs h
      simp [create_topics_publish, h]

/-- Witness for C7's amended discovery-retry conjunct: a one-message batch
whose acknowledged publish is followed by a failing uptime `GET` is treated
as failed and retried after a 60-second sleep. -/
theorem uptime_ping_amended_witness :
    create_topics_publish [("homeassistant/sensor/SN1/power_current/config", (0 : ℕ))]
      (fun k => if k = 0 then [(WaitResult.ackedWithin30, GetResult.exn)]
                else [(WaitResult.ackedWithin30, GetResult.ok)]) 2 0 =
      (create_topics_publish [("homeassistant/sensor/SN1/power_current/config", (0 : ℕ))]
        (fun k => if k = 0 then [(WaitResult.ackedWithin30, GetResult.exn)]
                  else [(WaitResult.ackedWithin30, GetResult.ok)]) 1 1).map
        (fun p => (p.1, 60 :: p.2)) :=
  (uptime_ping_amended.2.2.2.2.2.1 ℕ
    [("homeassistant/sensor/SN1/power_current/config", (0 : ℕ))]
    (fun k => if k = 0 then [(WaitResult.ackedWithin30, GetResult.exn)]
              else [(WaitResult.ackedWithin30, GetResult.ok)]) 1 0).1 rfl

/-- C5: every sensor key with a present (non-`None`) value in a Reading
appears in exactly one discovery descriptor and exactly one key of the
telemetry payload built from that Reading, and an absent key appears in
neither; the discovery batch emits exactly one descriptor per discovered
key, and for the Scenario B record (field 6 equal to `"d"`) `power_total`
is absent from the Reading, the discovery set and the telemetry payload. -/
theorem sensor_roundtrip (r : Reading) (k : String) (hk : k ∈ sensorKeys) :
    ((readingGet r k).isSome = true →
      (discoveredKeys r).count k = 1 ∧ (telemetryKeys r).count k = 1) ∧
    (readingGet r k = none →
      (discoveredKeys r).count k = 0 ∧ (telemetryKeys r).count k = 0) ∧
    (create_topics_descriptors r).map (fun ds => ds.length) =
      Except.ok (discoveredKeys r).length ∧
    (read_inverter recordB = some readingB ∧
      readingB.power_total = none ∧
      "power_total" ∉ discoveredKeys readingB ∧
      "power_total" ∉ telemetryKeys readingB) := by
  have hsplit : k = "power_current" ∨ k = "power_today" ∨ k = "power_total" ∨
      k = "inverter_temperature" := by
    simpa [sensorKeys, sensors] using hk
  refine ⟨?_, ?_, ?_, by decide, by decide, by decide, by decide⟩
  · intro hpres
    rw [discoveredKeys_eq, telemetryKeys_eq]
    rcases hsplit with rfl | rfl | rfl | rfl <;> cases hpt : r.power_total <;>
      simp_all [readingGet]
  · intro habs
    rw [discoveredKeys_eq, telemetryKeys_eq]
    rcases hsplit with rfl | rfl | rfl | rfl <;> cases hpt : r.power_total <;>
      simp_all [readingGet]
  · cases hpt : r.power_total with
    | none =>
      have hps : presentSensors r =
          [("power_current", "Current Power", "W"),
           ("power_today", "Today\x27s Production", "kWh"),
           ("inverter_temperature", "Inverter Temperature", "°C")] := by
        simp [presentSensors, sensors, readingGet, hpt]
      have hdk : (discoveredKeys r).length = 3 := by
        rw [discoveredKeys_eq, hpt]; rfl
      rw [create_topics_descriptors, hps, hdk]
      rfl
    | some v =>
      have hps : presentSensors r = sensors := by
        simp [presentSensors, sensors, readingGet, hpt]
      have hdk : (discoveredKeys r).length = 4 := by
        rw [discoveredKeys_eq, hpt]; rfl
      rw [create_topics_descriptors, hps, hdk]
      rfl

/-- Witness for C5 at a present key of the Scenario A reading. -/
theorem sensor_roundtrip_witness :
    (discoveredKeys readingA).count "power_total" = 1 ∧
    (telemetryKeys readingA).count "power_total" = 1 :=
  (sensor_roundtrip readingA "power_total" (by decide)).1 (by decide)

/-- C6: every sensor of the daemon's table passed to the discovery builder
with unit `kWh` gets `state_class=total_increasing`, `expire_after=0` and
`availability_mode=latest`; every other sensor of the table (units `W` and
`°C`) gets `state_class=measurement`, `expire_after=120` and
`availability_mode=any`.  (The JSON serialises the expire-after values as
the strings `"0"` and `"120"`, as the source does.) -/
theorem availability_policy (m : Reading) (internal_name external_name unit : String)
    (hs : (internal_name, external_name, unit) ∈ sensors) :
    (unit = "kWh" → ∃ t p, make_ha_topic m internal_name external_name unit = .ok (t, p) ∧
      p.state_class = "total_increasing" ∧ p.expire_after = "0" ∧
      p.availability_mode = "latest") ∧
    (unit ≠ "kWh" → ∃ t p, make_ha_topic m internal_name external_name unit = .ok (t, p) ∧
      p.state_class = "measurement" ∧ p.expire_after = "120" ∧
      p.availability_mode = "any") := by
  have hsplit : unit = "kWh" ∨ unit = "W" ∨ unit = "°C" := by
    simp [sensors] at hs
    rcases hs with ⟨_, _, h⟩ | ⟨_, _, h⟩ | ⟨_, _, h⟩ | ⟨_, _, h⟩ <;> simp [h.symm]
  constructor
  · intro h
    subst h
    exact ⟨_, _, rfl, rfl, rfl, rfl⟩
  · intro h
    rcases hsplit with rfl | rfl | rfl
    · exact absurd rfl h
    · exact ⟨_, _, rfl, rfl, rfl, rfl⟩
    · exact ⟨_, _, rfl, rfl, rfl, rfl⟩

/-- Witness for C6 at the `power_today` (kWh) sensor of the table and the
Scenario A reading. -/
theorem availability_policy_witness :
    ∃ t p, make_ha_topic readingA "power_today" "Today\x27s Production" "kWh" = .ok (t, p) ∧
      p.state_class = "total_increasing" ∧ p.expire_after = "0" ∧
      p.availability_mode = "latest" :=
  (availability_policy readingA "power_today" "Today\x27s Production" "kWh"
    (by decide)).1 rfl

/-- A reading equal to `readingA` except for a different temperature value:
same device metadata, same presence set. -/
def readingA2 : Reading :=
  { readingA with inverter_temperature := mkRat 99 1 }

/-- C8: the discovery batch depends only on the device metadata (serial,
model, firmware) and the sensor-presence set, so two calls with the same
metadata and presence produce identical descriptors; model resolution falls
back to the raw firmware-reported model code whenever the code is not in
the lookup table, and resolves `518` through the table. -/
theorem discovery_idempotent (m m' : Reading)
    (hs : m.serial_number = m'.serial_number)
    (hm : m.model_number = m'.model_number)
    (hf : m.firmware_version = m'.firmware_version)
    (hp : ∀ k ∈ sensorKeys, (readingGet m k).isSome = (readingGet m' k).isSome) :
    create_topics_descriptors m = create_topics_descriptors m' ∧
    (∀ mn, MODEL_LOOKUP_get mn = none → resolve_model mn = mn) ∧
    resolve_model "518" = "S5-GR3P10K-LV" := by
  have hmk : ∀ i e u, make_ha_topic m i e u = make_ha_topic m' i e u := by
    intro i e u
    simp only [make_ha_topic, hs, hm, hf]
  have haux : ∀ rows, descriptorsAux m rows = descriptorsAux m' rows := by
    intro rows
    induction rows with
    | nil => rfl
    | cons a t ih => simp [descriptorsAux, hmk, ih]
  have hps : presentSensors m = presentSensors m' := by
    unfold presentSensors
    refine List.filter_congr ?_
    intro s hsm
    exact hp s.1 (List.mem_map_of_mem (·.1) hsm)
  refine ⟨?_, ?_, by decide⟩
  · rw [create_topics_descriptors, create_topics_descriptors, hps, haux]
  · intro mn h
    simp [resolve_model, h]

/-- Witness for C8: the Scenario A reading and the same reading with a
different temperature produce identical discovery batches. -/
theorem discovery_idempotent_witness :
    create_topics_descriptors readingA = create_topics_descriptors readingA2 :=
  (discovery_idempotent readingA readingA2 rfl rfl rfl (by decide)).1

/-- C9: in `read_device`, the wireless AP-mode and STA-mode fields always
resolve to unknown (`none`) for every input token: the token is lower-cased
before being compared with the mixed-case literals `"Enable"` and
`"Disable"`, so neither comparison can ever succeed. -/
theorem wireless_status_always_unknown :
    (∀ s, enable_flag s = none) ∧
    (∀ body d, read_device body = some d →
      d.wireless_ap = none ∧ d.wireless_sta = none) := by
  refine ⟨enable_flag_none, ?_⟩
  intro body d h
  unfold read_device at h
  split at h
  · cases h
    exact ⟨enable_flag_none _, enable_flag_none _⟩
  · exact absurd h (by simp)

/-- A concrete decoded device-status record. -/
def deviceB : DeviceInfo :=
  { sn := "SN", fwver := "V1", wireless_ap := none, wireless_ap_ssid := some "myssid",
    wireless_ap_ip := some "1.2.3.4", wireless_sta := none,
    wireless_sta_ssid := some "rssid", wireless_sta_rssi := some "77",
    wireless_sta_ip := some "2.3.4.5", wireless_sta_mac := some "AA:BB",
    remote_server_a_connected := some true, remote_server_b_connected := none }

/-- Witness for C9 at a concrete device-status record whose AP field is the
token `"Enable"` itself — it still resolves to unknown. -/
theorem wireless_status_always_unknown_witness :
    deviceB.wireless_ap = none ∧ deviceB.wireless_sta = none :=
  wireless_status_always_unknown.2
    "SN;V1;Enable;myssid;1.2.3.4;;Enable;rssid;77;2.3.4.5;AA:BB;connected;no"
    deviceB (by decide)

/-- C10: the telemetry key set is recomputed each cycle from the current
Reading alone — it is the presence filter of that Reading, independent of
the discovery set captured at startup — so `power_total`, absent from a
first Reading (and hence from discovery), appears in the telemetry payload
of any later Reading that carries a value for it; concretely with the
Scenario B record first and the Scenario A record later. -/
theorem telemetry_recomputed_per_cycle :
    (∀ r : Reading, telemetryKeys r =
      if r.power_total.isSome
      then ["power_current", "power_today", "power_total", "inverter_temperature"]
      else ["power_current", "power_today", "inverter_temperature"]) ∧
    (∀ r0 : Reading, r0.power_total = none → "power_total" ∉ discoveredKeys r0) ∧
    (∀ (r1 : Reading) (v : ℚ), r1.power_total = some v →
      "power_total" ∈ telemetryKeys r1) ∧
    (read_inverter recordB = some readingB ∧ read_inverter recordA = some readingA ∧
      "power_total" ∉ discoveredKeys readingB ∧
      "power_total" ∈ telemetryKeys readingA) := by
  refine ⟨telemetryKeys_eq, ?_, ?_, by decide, by decide, by decide, by decide⟩
  · intro r0 h
    rw [discoveredKeys_eq, h]
    decide
  · intro r1 v h
    rw [telemetryKeys_eq, h]
    simp

/-- Witness for C10 at the two scenario readings. -/
theorem telemetry_recomputed_per_cycle_witness :
    "power_total" ∉ discoveredKeys readingB ∧ "power_total" ∈ telemetryKeys readingA :=
  ⟨telemetry_recomputed_per_cycle.2.1 readingB rfl,
   telemetry_recomputed_per_cycle.2.2.1 readingA (mkRat 98765 1) rfl⟩
